import Mathlib

/-!
# Verification of the LAS attendance ingestion-and-reconciliation engine

Shallow embedding of the matching engine (`attendance.service.ts`), the
schedule queries (`subject.service.ts`, `lecture.service.ts`), the binary
offline importer (`usb-import.ts`), the serial frame encoder
(`serial-client.ts`) and the sync scheduler (`sync-scheduler.ts`).

Conventions of the embedding:
* Calendar dates are day indices (`Nat`); day-of-week is `date % 7`, with the
  index origin chosen on a Sunday so that `% 7` agrees with JavaScript
  `Date.getDay()` (0 = Sunday).  Local time and UTC coincide in the model.
* A time of day is the number of seconds since midnight (`Nat`).  The
  `time` SQL columns `start_time`/`end_time` are stored with second
  precision, matching the `HH:MM(:SS)` strings accepted by
  `subjectService.validateTimeFormat`.
* Database tables are Lean lists in insertion order; `findOne` without an
  `order` clause is modelled as `List.find?` (first row in that order), and
  generated primary keys are modelled by per-table counters.
-/

namespace LAS

/-- Student status (`StudentStatus` in `Student.ts`). -/
inductive StudentStatus where
  | active
  | inactive
  | suspended
deriving DecidableEq, Repr

/-- Academic stage (`AcademicStage` in `Student.ts` / `Subject.ts`). -/
inductive AcademicStage where
  | stage1
  | stage2
  | stage3
  | stage4
  | stage5
  | postgraduate
deriving DecidableEq, Repr

/-- Subject status (`SubjectStatus` in `Subject.ts`). -/
inductive SubjectStatus where
  | active
  | inactive
deriving DecidableEq, Repr

/-- Scan modality (`EventType` in `DeviceLogRaw.ts`). -/
inductive EventType where
  | fingerprint
  | face
  | card
deriving DecidableEq, Repr

/-- Attendance status (`AttendanceStatus` in `AttendanceRecord.ts`). -/
inductive AttendanceStatus where
  | present
  | absent
deriving DecidableEq, Repr

/-- Attendance source (`AttendanceSource` in `AttendanceRecord.ts`). -/
inductive AttendanceSource where
  | fingerprint
  | system_auto
deriving DecidableEq, Repr

/-- An instant: a calendar day index plus seconds since (local) midnight.
`date` corresponds to `toISOString().split('T')[0]`, `tod` to
`toTimeString().slice(0, 8)` of a JavaScript `Date`. -/
structure Timestamp where
  date : Nat
  tod : Nat
deriving DecidableEq, Repr

/-- JavaScript `Date.getDay()` of a day index (0 = Sunday). -/
def Timestamp.dayOfWeek (ts : Timestamp) : Nat := ts.date % 7

/-- A student row (`students` table, `Student.ts`). -/
structure Student where
  student_id : Nat
  biometric_user_id : String
  status : StudentStatus
  academic_stage : AcademicStage
deriving DecidableEq, Repr

/-- A subject row — the schedule window (`subjects` table, `Subject.ts`).
`start_time`/`end_time` are seconds since midnight (SQL `time`). -/
structure Subject where
  subject_id : Nat
  day_of_week : Option Nat
  specific_date : Option Nat
  start_time : Nat
  end_time : Nat
  academic_stage : AcademicStage
  status : SubjectStatus
deriving DecidableEq, Repr

/-- A legacy lecture row (`lectures` table, `Lecture.ts`): like a subject but
with no status column and no academic stage used by the engine. -/
structure Lecture where
  lecture_id : Nat
  day_of_week : Option Nat
  specific_date : Option Nat
  start_time : Nat
  end_time : Nat
deriving DecidableEq, Repr

/-- A raw device log row (`device_logs_raw` table, `DeviceLogRaw.ts`).
The `device_id` column (`@Column({ type: 'uuid' })`, lines 25–26) carries
no `nullable` option, so it is NOT NULL — deliberately, since the same
entity marks `event_type` as `nullable: true`.  A persisted row therefore
always has a device id. -/
structure RawLog where
  raw_log_id : Nat
  biometric_user_id : String
  device_id : Nat
  log_timestamp : Timestamp
  event_type : Option EventType
  processed : Bool
deriving DecidableEq, Repr

/-- An attendance row (`attendance_records` table, `AttendanceRecord.ts`).
The entity declares no uniqueness constraint besides the generated primary
key `attendance_id`. -/
structure AttendanceRecord where
  attendance_id : Nat
  student_id : Nat
  lecture_id : Option Nat
  subject_id : Option Nat
  attendance_date : Option Nat
  scan_timestamp : Timestamp
  device_id : Option Nat
  status : AttendanceStatus
  source : AttendanceSource
  raw_log_id : Option Nat
deriving DecidableEq, Repr

/-- The payload of `processScan` (`ProcessScanDto` in `attendance.service.ts`):
`event_type` is optional. -/
structure ScanEvent where
  biometric_user_id : String
  timestamp : Timestamp
  device_id : Option Nat
  event_type : Option EventType
deriving DecidableEq, Repr

/-- The persistent state: one list per table, in insertion order, plus
counters for generated primary keys. -/
structure DB where
  students : List Student
  subjects : List Subject
  lectures : List Lecture
  attendance : List AttendanceRecord
  rawLogs : List RawLog
  nextRawLogId : Nat
  nextAttendanceId : Nat
deriving DecidableEq, Repr

/-! ## Schedule queries (`subject.service.ts`, `lecture.service.ts`) -/

/-- Hour component of a stored `time` value, as read back by
`start_time.split(':')[0]`. -/
def hourOf (t : Nat) : Nat := t / 3600

/-- Minute component of a stored `time` value (`split(':')[1]`). -/
def minuteOf (t : Nat) : Nat := t % 3600 / 60

/-- Models `d.setHours(h, m, 0, 0)` on the scan's day: seconds since midnight,
seconds and milliseconds zeroed. -/
def setHM (h m : Nat) : Nat := h * 3600 + m * 60

/-- Row predicate of `subjectService.findActiveAtTime` (subject.service.ts,
lines 128–143): active status, recurrence match (day-of-week OR exact
specific date), and `start_time <= t <= end_time` with full `time`-column
precision. -/
def subjectMatchesAt (ts : Timestamp) (s : Subject) : Bool :=
  s.status == SubjectStatus.active &&
    (s.day_of_week == some ts.dayOfWeek || s.specific_date == some ts.date) &&
    s.start_time ≤ ts.tod && ts.tod ≤ s.end_time

/-- Models `subjectService.findActiveAtTime`: all matching subjects, in table order. -/
def findActiveAtTime (subjects : List Subject) (ts : Timestamp) : List Subject :=
  subjects.filter (subjectMatchesAt ts)

/-- Row predicate of `lectureService.findActiveAtTime` (lecture.service.ts,
lines 94–105): same as the subject query but with no status column. -/
def lectureMatchesAt (ts : Timestamp) (l : Lecture) : Bool :=
  (l.day_of_week == some ts.dayOfWeek || l.specific_date == some ts.date) &&
    l.start_time ≤ ts.tod && ts.tod ≤ l.end_time

/-- Models `lectureService.findActiveAtTime`. -/
def lecturesActiveAtTime (lectures : List Lecture) (ts : Timestamp) : List Lecture :=
  lectures.filter (lectureMatchesAt ts)

/-- Models `subjectService.isWithinTimeWindow` (subject.service.ts, lines 324–335):
parses only the hour and minute of `start_time`/`end_time`
(`const [h, m] = t.split(':').map(Number)`), rebuilds both bounds on the
scan's day with `setHours(h, m, 0, 0)`, and tests inclusively. A seconds
component of the stored window bounds is silently discarded. -/
def isWithinTimeWindow (tod : Nat) (s : Subject) : Bool :=
  setHM (hourOf s.start_time) (minuteOf s.start_time) ≤ tod &&
    tod ≤ setHM (hourOf s.end_time) (minuteOf s.end_time)

/-- Full acceptance of a scan against one window: the window-resolution row
predicate (step 5 of `processFingerprintScan`) and the strict in-window
validation (step 6) both pass. -/
def scanAccepted (ts : Timestamp) (s : Subject) : Bool :=
  subjectMatchesAt ts s && isWithinTimeWindow ts.tod s

/-! ## Identity queries (`student.service.ts`) -/

/-- Models `studentService.findByBiometricId`: `findOne` on the unique column. -/
def findByBiometricId (students : List Student) (uid : String) : Option Student :=
  students.find? (fun s => s.biometric_user_id == uid)

/-- Models `studentService.findByAcademicStage` (student.service.ts, lines 96–104):
all active students of a stage. (The `name ASC` ordering of the original
only permutes the result; the engine uses it as a set.) -/
def findByAcademicStage (students : List Student) (stage : AcademicStage) :
    List Student :=
  students.filter (fun s =>
    s.academic_stage == stage && s.status == StudentStatus.active)

/-! ## Raw-log persistence (`attendance.service.ts`) -/

/-- The row written by `storeRawLog` (attendance.service.ts, lines 324–334)
for an event whose `device_id` resolved to `did`: the event's fields with
`processed: false`. -/
def mkRawLog (id : Nat) (e : ScanEvent) (did : Nat) : RawLog :=
  { raw_log_id := id
    biometric_user_id := e.biometric_user_id
    device_id := did
    log_timestamp := e.timestamp
    event_type := e.event_type
    processed := false }

/-- Insert the raw log row of a device-carrying event and advance the key
counter. -/
def insertRawLog (db : DB) (e : ScanEvent) (did : Nat) : DB :=
  { db with
    rawLogs := db.rawLogs ++ [mkRawLog db.nextRawLogId e did]
    nextRawLogId := db.nextRawLogId + 1 }

/-- Models `attendanceService.storeRawLog`: `deviceLogRepository.save` of
the event's row.  When the event carries no `device_id`, the INSERT
violates the NOT NULL `device_id` column of `device_logs_raw`, `save`
rejects, and nothing is persisted — modelled by `none`. -/
def storeRawLog (db : DB) (e : ScanEvent) : Option (DB × RawLog) :=
  match e.device_id with
  | none => none
  | some did => some (insertRawLog db e did, mkRawLog db.nextRawLogId e did)

/-- Models `deviceLogRepository.update(raw_log_id, { processed: true })`: set the
flag on every row whose key matches. -/
def markProcessed (db : DB) (id : Nat) : DB :=
  { db with
    rawLogs := db.rawLogs.map (fun r =>
      if r.raw_log_id == id then { r with processed := true } else r) }

/-- Date under which an attendance row is compared and filtered:
`r.attendance_date?.toISOString().split('T')[0] ||
 r.scan_timestamp.toISOString().split('T')[0]`. -/
def recordDate (r : AttendanceRecord) : Nat :=
  r.attendance_date.getD r.scan_timestamp.date

/-! ## The matching engine (`attendanceService.processFingerprintScan`)

The source function interleaves queries with three persistent effects:
inserting the raw log (always first), optionally inserting one attendance
row, and optionally setting the raw log's `processed` flag.  The embedding
separates the *decision* (`decideScan`, mirroring the source's step-by-step
control flow on the state as it stands after the raw-log insert) from the
*application* of its effects (`applyDecision`); the composition
`processFingerprintScan` performs exactly the source's state change. -/

/-- Outcome of one `processFingerprintScan` call after the raw log is
stored: the attendance row to insert (if the scan commits) and whether the
raw log is marked `processed`. -/
structure ScanDecision where
  record : Option AttendanceRecord
  markLog : Bool
deriving DecidableEq, Repr

/-- Step 2 guard: `data.event_type && data.event_type !== 'fingerprint'`.
An absent (`undefined`) `event_type` is falsy, so it is *not* rejected. -/
def modalityReject : Option EventType → Bool
  | some t => !(t == EventType.fingerprint)
  | none => false

/-- The attendance row committed in step 8 of `processFingerprintScan`:
`status=present`, `source=fingerprint`, dated at the scan's calendar day,
linked to the raw log. -/
def mkPresentRecord (aid : Nat) (stu : Student) (subj : Subject)
    (e : ScanEvent) (rid : Nat) : AttendanceRecord :=
  { attendance_id := aid
    student_id := stu.student_id
    lecture_id := none
    subject_id := some subj.subject_id
    attendance_date := some e.timestamp.date
    scan_timestamp := e.timestamp
    device_id := e.device_id
    status := AttendanceStatus.present
    source := AttendanceSource.fingerprint
    raw_log_id := some rid }

/-- The attendance row committed by the legacy `processLectureScan`:
linked to a lecture, with no `subject_id` and no `attendance_date`. -/
def mkLectureRecord (aid : Nat) (stu : Student) (lec : Lecture)
    (e : ScanEvent) (rid : Nat) : AttendanceRecord :=
  { attendance_id := aid
    student_id := stu.student_id
    lecture_id := some lec.lecture_id
    subject_id := none
    attendance_date := none
    scan_timestamp := e.timestamp
    device_id := e.device_id
    status := AttendanceStatus.present
    source := AttendanceSource.fingerprint
    raw_log_id := some rid }

/-- Step 7's duplicate lookup: `findOne({ where: { student_id, subject_id } })`
— the *date is not part of the query*; the first row for the
(student, subject) pair in table order is returned, whatever its date. -/
def pairFind (att : List AttendanceRecord) (sid jid : Nat) :
    Option AttendanceRecord :=
  att.find? (fun r => r.student_id == sid && r.subject_id == some jid)

/-- Models `processLectureScan` (attendance.service.ts, lines 256–302): duplicate
lookup by (student, lecture) with no date comparison at all; otherwise
commit a present record and mark the raw log processed. -/
def decideLectureScan (db : DB) (e : ScanEvent) (student : Student)
    (lecture : Lecture) (rid : Nat) : ScanDecision :=
  match db.attendance.find? (fun r =>
      r.student_id == student.student_id &&
      r.lecture_id == some lecture.lecture_id) with
  | some _ => ⟨none, true⟩
  | none =>
      ⟨some (mkLectureRecord db.nextAttendanceId student lecture e rid), true⟩

/-- Steps 2–8 of `processFingerprintScan` (attendance.service.ts, lines
151–251), evaluated on the state after the raw-log insert.  Branches, in
source order:
* step 2 — non-fingerprint modality: drop, raw log marked processed;
* step 3 — unknown biometric id: drop, raw log left unprocessed;
* step 4 — student not active: drop, raw log left unprocessed;
* step 5 — no active subject: fall back to the first active lecture, else
  drop with the raw log left unprocessed;
* step 6 — scan outside the first subject's (minute-truncated) window:
  drop, raw log marked processed;
* step 7 — the one (student, subject) row found has this scan's date:
  duplicate, drop, raw log marked processed;
* step 8 — commit a present record and mark the raw log processed. -/
def decideScan (db : DB) (e : ScanEvent) (rid : Nat) : ScanDecision :=
  if modalityReject e.event_type then ⟨none, true⟩
  else
    match findByBiometricId db.students e.biometric_user_id with
    | none => ⟨none, false⟩
    | some student =>
      if !(student.status == StudentStatus.active) then ⟨none, false⟩
      else
        match findActiveAtTime db.subjects e.timestamp with
        | [] =>
          match lecturesActiveAtTime db.lectures e.timestamp with
          | [] => ⟨none, false⟩
          | lecture :: _ => decideLectureScan db e student lecture rid
        | subject :: _ =>
          if !(isWithinTimeWindow e.timestamp.tod subject) then ⟨none, true⟩
          else
            match pairFind db.attendance student.student_id subject.subject_id with
            | some existing =>
              if recordDate existing == e.timestamp.date then ⟨none, true⟩
              else
                ⟨some (mkPresentRecord db.nextAttendanceId student subject e rid),
                  true⟩
            | none =>
              ⟨some (mkPresentRecord db.nextAttendanceId student subject e rid),
                true⟩

/-- Apply a decision's effects: insert the committed attendance row (if
any), then set the raw log's `processed` flag (if decided). -/
def applyDecision (db : DB) (d : ScanDecision) (rid : Nat) : DB :=
  let db1 :=
    match d.record with
    | some r =>
        { db with
          attendance := db.attendance ++ [r]
          nextAttendanceId := db.nextAttendanceId + 1 }
    | none => db
  if d.markLog then markProcessed db1 rid else db1

/-- Models `attendanceService.processFingerprintScan`: store the raw log
first, unconditionally attempted before anything else (step 1), then
decide and apply.  Returns the new state and the created record (`null`
in the source becomes `none`); the outer `none` models the call throwing
because the raw-log insert failed (device-less event), in which case
nothing is persisted. -/
def processFingerprintScan (db : DB) (e : ScanEvent) :
    Option (DB × Option AttendanceRecord) :=
  match storeRawLog db e with
  | none => none
  | some (db1, rawLog) =>
    some (applyDecision db1 (decideScan db1 e rawLog.raw_log_id)
        rawLog.raw_log_id,
      (decideScan db1 e rawLog.raw_log_id).record)

/-- Models `attendanceService.processScan`, which routes every event to
`processFingerprintScan`. -/
def processScan (db : DB) (e : ScanEvent) :
    Option (DB × Option AttendanceRecord) :=
  processFingerprintScan db e

/-- The state the program has persisted after one `processScan` call: a
call that throws (failed raw-log insert) persists nothing. -/
def stepScan (db : DB) (e : ScanEvent) : DB :=
  match processScan db e with
  | none => db
  | some p => p.1

/-! ## The absence sweep (`attendanceService.autoMarkAbsentForSubject`) -/

/-- The absent row created by the sweep: `status=absent`,
`source=system_auto`, timestamped at the date combined with the subject's
start time (`setHours(startHour, startMinute, 0, 0)`). -/
def mkAbsentRecord (aid sid jid d : Nat) (subj : Subject) : AttendanceRecord :=
  { attendance_id := aid
    student_id := sid
    lecture_id := none
    subject_id := some jid
    attendance_date := some d
    scan_timestamp :=
      ⟨d, setHM (hourOf subj.start_time) (minuteOf subj.start_time)⟩
    device_id := none
    status := AttendanceStatus.absent
    source := AttendanceSource.system_auto
    raw_log_id := none }

/-- The sweep's creation loop: one absent row per remaining student, saved
sequentially (each save draws the next generated key). -/
def mkAbsentRecords (subj : Subject) (jid d : Nat) :
    Nat → List Student → List AttendanceRecord
  | _, [] => []
  | aid, s :: rest =>
      mkAbsentRecord aid s.student_id jid d subj ::
        mkAbsentRecords subj jid d (aid + 1) rest

/-- Ids of students already recorded for this subject and date
(attendance.service.ts, lines 347–357): all rows of the subject, filtered
to the date, mapped to `student_id`. -/
def recordedStudentIds (att : List AttendanceRecord) (jid d : Nat) : List Nat :=
  ((att.filter (fun r => r.subject_id == some jid)).filter
      (fun r => recordDate r == d)).map (fun r => r.student_id)

/-- The students the sweep will mark absent: active students of the
subject's stage minus those already recorded. -/
def absentStudentsFor (db : DB) (subj : Subject) (jid d : Nat) : List Student :=
  (findByAcademicStage db.students subj.academic_stage).filter
    (fun s => !((recordedStudentIds db.attendance jid d).contains s.student_id))

/-- Models `attendanceService.autoMarkAbsentForSubject` (attendance.service.ts,
lines 340–390).  `none` models the `AppError` thrown by
`subjectService.findById` when the subject does not exist; otherwise
returns the new state and the `marked_absent` count. -/
def autoMarkAbsentForSubject (db : DB) (jid d : Nat) : Option (DB × Nat) :=
  match db.subjects.find? (fun s => s.subject_id == jid) with
  | none => none
  | some subject =>
    let absents := absentStudentsFor db subject jid d
    some
      ({ db with
          attendance :=
            db.attendance ++ mkAbsentRecords subject jid d db.nextAttendanceId absents
          nextAttendanceId := db.nextAttendanceId + absents.length },
        absents.length)

/-! ## Binary offline importer (`usb-import.ts`, `parseDatFile`)

Buffers are lists of byte values.  Node's `'ascii'` decoding keeps the low
7 bits of each byte; `replace(/\0/g, '')` removes every NUL; `trim()`
strips leading/trailing whitespace.  For indices below
`floor(length / 40)` every read of a record is in range, so the source's
per-record `try/catch` can only be left via the explicit empty-id `continue`. -/

/-- A normalized event produced by the importer (`UsbLogEntry`):
the decoded user id (as character codes) and the timestamp in seconds
since 2000-01-01T00:00:00Z. -/
structure UsbLogEntry where
  biometric_user_id : List Nat
  timestamp : Nat
  event_type : EventType
deriving DecidableEq, Repr

/-- Characters removed by JavaScript `String.prototype.trim` within the
ASCII range. -/
def isJsWhitespace (c : Nat) : Bool :=
  c == 9 || c == 10 || c == 11 || c == 12 || c == 13 || c == 32

/-- Models `str.trim()`. -/
def trimAscii (l : List Nat) : List Nat :=
  ((l.dropWhile isJsWhitespace).reverse.dropWhile isJsWhitespace).reverse

/-- Models `buffer.readUInt32LE(off)`. -/
def readUInt32LE (buf : List Nat) (off : Nat) : Nat :=
  buf.getD off 0 + 256 * buf.getD (off + 1) 0 +
    65536 * buf.getD (off + 2) 0 + 16777216 * buf.getD (off + 3) 0

/-- The modality lookup table `parseEventTypeByte` (usb-import.ts, lines
217–231): 0/1 → fingerprint, 2/15 → face, 3/4 → card, default fingerprint. -/
def parseEventTypeByte (b : Nat) : EventType :=
  match b with
  | 0 | 1 => EventType.fingerprint
  | 2 | 15 => EventType.face
  | 3 | 4 => EventType.card
  | _ => EventType.fingerprint

/-- The NUL-stripped, trimmed 9-byte user-id field of record `i`:
`buffer.slice(off, off + 9).toString('ascii').replace(/\0/g, '').trim()`. -/
def datUserId (buf : List Nat) (i : Nat) : List Nat :=
  trimAscii ((((buf.drop (i * 40)).take 9).map (fun b => b % 128)).filter
    (fun c => !(c == 0)))

/-- Models `usbImportService.parseDatFile` (usb-import.ts, lines 46–86): the
buffer is processed as `floor(length / 40)` consecutive 40-byte records;
each record with a non-empty user id yields one event (timestamp at byte
offset 24, modality byte at offset 28), every other record is skipped
individually. -/
def parseDatFile (buf : List Nat) : List UsbLogEntry :=
  (List.range (buf.length / 40)).filterMap (fun i =>
    if datUserId buf i == [] then none
    else
      some
        { biometric_user_id := datUserId buf i
          timestamp := readUInt32LE buf (i * 40 + 24)
          event_type := parseEventTypeByte (buf.getD (i * 40 + 28) 0) })

/-! ## Serial frame encoder (`serial-client.ts`) -/

/-- Models `calculateChecksum` (serial-client.ts, lines 173–179): the sum of the
command's byte values, truncated with `& 0xFF`. -/
def calculateChecksum (data : List Nat) : Nat :=
  (data.foldl (fun s c => s + c) 0) &&& 255

/-- Sequential writes into a pre-allocated buffer (`Buffer.write*` at an
offset): each value overwrites one slot. -/
def bufWrite : List Nat → Nat → List Nat → List Nat
  | buf, _, [] => buf
  | buf, off, v :: vs => bufWrite (buf.set off v) (off + 1) vs

/-- Models `formatCommand` (serial-client.ts, lines 160–168): allocate
`command.length + 3` zero bytes, write the RS485 address at 0, the command
bytes at 1, the checksum at `length + 1` and the CR terminator at
`length + 2`.  `writeUInt8` throws a `RangeError` for a value above 255
(modelled by `none`); the checksum and CR are always in range. -/
def formatCommand (address : Nat) (command : List Nat) : Option (List Nat) :=
  if address < 256 then
    some
      (bufWrite
        (bufWrite
          (bufWrite (bufWrite (List.replicate (command.length + 3) 0) 0 [address])
            1 command)
          (command.length + 1) [calculateChecksum command])
        (command.length + 2) [13])
  else none

/-! ## Sync scheduler (`sync-scheduler.ts`, `syncAllDevices`)

The per-cycle loop is modelled by its event trace: for each device, a
`start` event when `syncDevice` begins and a `finish` event when it
returns or its error is caught.  `run` abstracts the body of `syncDevice`
(connect, fetch, process): `.error` is a thrown connection/protocol
failure, which the loop's `try/catch` converts into a `finish` with
`ok = false` before the next device starts. -/

/-- A device row (`devices` table), restricted to the fields the scheduler
reads. -/
structure Device where
  device_id : Nat
  is_active : Bool
  ip_address : Option String
deriving DecidableEq, Repr

/-- An observable step of a sync cycle. -/
inductive SyncEv where
  | start (id : Nat)
  | finish (id : Nat) (ok : Bool)
deriving DecidableEq, Repr

/-- The trace contributed by one loop iteration: `syncDevice` begins, then
returns or has its thrown error caught by the loop's `try/catch`. -/
def syncBlock (run : Device → Except String Unit) (d : Device) : List SyncEv :=
  [SyncEv.start d.device_id,
   SyncEv.finish d.device_id
     (match run d with | Except.ok _ => true | Except.error _ => false)]

/-- Models `syncAllDevices` (sync-scheduler.ts, lines 78–101): load the active
devices, then iterate them with `await` in a `for` loop — one at a time —
catching each device's error so the cycle continues. -/
def syncAllDevices (devices : List Device) (run : Device → Except String Unit) :
    List SyncEv :=
  (devices.filter (fun d => d.is_active)).flatMap (syncBlock run)

/-- The device id of a `start` event. -/
def startId : SyncEv → Option Nat
  | SyncEv.start id => some id
  | SyncEv.finish _ _ => none

/-! ## General lemmas about the engine's state transitions -/

theorem markProcessed_attendance (db : DB) (id : Nat) :
    (markProcessed db id).attendance = db.attendance := rfl

theorem applyDecision_attendance (db : DB) (d : ScanDecision) (rid : Nat) :
    (applyDecision db d rid).attendance = db.attendance ++ d.record.toList := by
  rcases d with ⟨_ | r, m⟩ <;> cases m <;>
    simp [applyDecision, markProcessed, Option.toList]

theorem processFingerprintScan_none (db : DB) (e : ScanEvent)
    (h : e.device_id = none) : processFingerprintScan db e = none := by
  unfold processFingerprintScan storeRawLog
  rw [h]

theorem processFingerprintScan_some (db : DB) (e : ScanEvent) (did : Nat)
    (h : e.device_id = some did) :
    processFingerprintScan db e =
      some (applyDecision (insertRawLog db e did)
          (decideScan (insertRawLog db e did) e db.nextRawLogId)
          db.nextRawLogId,
        (decideScan (insertRawLog db e did) e db.nextRawLogId).record) := by
  unfold processFingerprintScan storeRawLog
  rw [h]
  rfl

theorem stepScan_none (db : DB) (e : ScanEvent) (h : e.device_id = none) :
    stepScan db e = db := by
  unfold stepScan processScan
  rw [processFingerprintScan_none db e h]

theorem stepScan_attendance (db : DB) (e : ScanEvent) (did : Nat)
    (h : e.device_id = some did) :
    (stepScan db e).attendance =
      db.attendance ++
        ((decideScan (insertRawLog db e did) e db.nextRawLogId).record).toList := by
  unfold stepScan processScan
  rw [processFingerprintScan_some db e did h]
  exact applyDecision_attendance (insertRawLog db e did) _ db.nextRawLogId

theorem setHM_hour_minute (t : Nat) (h : t % 60 = 0) :
    setHM (hourOf t) (minuteOf t) = t := by
  unfold setHM hourOf minuteOf
  omega

/-! ## Claim C3: face/card events are logged but never reconciled

The claim fails as stated.  A face/card event that carries no `device_id`
— reachable through the public log-push routes, which forward the body's
optional `device_id` unchanged — fails the raw-log INSERT on the NOT NULL
`device_id` column before the modality filter runs: `processScan` throws
and *no* RawLog is persisted, contradicting the claim's "still produces a
RawLog".  For device-carrying face/card events the claimed behaviour
holds. -/

/-- Empty state used to refute C3. -/
def c3ndb : DB := ⟨[], [], [], [], [], 0, 0⟩

/-- A face event with no `device_id`. -/
def c3nev : ScanEvent := ⟨"u9", ⟨6, 100⟩, none, some EventType.face⟩

/-- C3 counterexample: a device-less face event makes `processScan` throw
at the raw-log insert (NOT NULL `device_id`), so the call fails and the
raw-log table stays empty — the event produces no RawLog at all, refuting
the claim that a face/card event always produces one. -/
theorem face_card_no_rawlog_counterexample :
    processFingerprintScan c3ndb c3nev = none ∧
    (stepScan c3ndb c3nev).rawLogs = [] := by
  decide

/-- C3 (amended).  For every device-carrying event whose `event_type` is
`face` or `card`, `processScan` creates no AttendanceRecord (`null`
result, attendance table unchanged), yet exactly one RawLog row is still
persisted, and that row — the last row of the raw-log table — carries
`processed = true` after the modality filter drops the event.  An event
without a `device_id` instead fails the raw-log insert and produces no
RawLog (see the counterexample). -/
theorem face_card_recorded_not_reconciled (db : DB) (e : ScanEvent)
    (did : Nat) (hdev : e.device_id = some did)
    (het : e.event_type = some EventType.face ∨
      e.event_type = some EventType.card) :
    ∃ db2, processFingerprintScan db e = some (db2, none) ∧
      db2.attendance = db.attendance ∧
      db2.rawLogs.length = db.rawLogs.length + 1 ∧
      db2.rawLogs.getLast? =
        some { mkRawLog db.nextRawLogId e did with processed := true } := by
  have hmr : modalityReject e.event_type = true := by
    rcases het with h | h <;> simp [h, modalityReject]
  have hd : decideScan (insertRawLog db e did) e db.nextRawLogId =
      ⟨none, true⟩ := by
    unfold decideScan
    simp [hmr]
  refine ⟨applyDecision (insertRawLog db e did) ⟨none, true⟩ db.nextRawLogId,
    ?_, ?_, ?_, ?_⟩
  · rw [processFingerprintScan_some db e did hdev, hd]
  · simp [applyDecision, markProcessed, insertRawLog]
  · simp [applyDecision, markProcessed, insertRawLog]
  · simp [applyDecision, markProcessed, insertRawLog, mkRawLog,
      List.getLast?_concat]
    try exact fun hcontra => absurd rfl hcontra

/-- Empty state used to instantiate the amended C3. -/
def c3db : DB := ⟨[], [], [], [], [], 0, 0⟩

/-- The device-carrying face event used to instantiate the amended C3. -/
def c3ev : ScanEvent := ⟨"u9", ⟨6, 100⟩, some 4, some EventType.face⟩

theorem face_card_recorded_not_reconciled_witness :
    ∃ db2, processFingerprintScan c3db c3ev = some (db2, none) ∧
      db2.attendance = c3db.attendance ∧
      db2.rawLogs.length = c3db.rawLogs.length + 1 ∧
      db2.rawLogs.getLast? =
        some { mkRawLog c3db.nextRawLogId c3ev 4 with processed := true } :=
  face_card_recorded_not_reconciled c3db c3ev 4 rfl (Or.inl rfl)

/-! ## Claim C4: window boundaries

The claim fails as stated: `validateTimeFormat` admits second-precision
window bounds (`HH:MM:SS`), and for such a window `isWithinTimeWindow`
truncates both bounds to the minute, so a scan at exactly a
seconds-bearing `end_time` passes the resolution query but is rejected by
the in-window validation.  For whole-minute bounds the claimed boundary
behaviour holds. -/

/-- Subject whose `end_time` is 10:00:30 — accepted by
`validateTimeFormat` — used to refute C4 as stated. -/
def c4subject : Subject :=
  ⟨0, some 6, none, 32400, 36030, AcademicStage.stage1, SubjectStatus.active⟩

/-- Student scanning at exactly `end_time` of `c4subject`. -/
def c4student : Student := ⟨0, "u1", StudentStatus.active, AcademicStage.stage1⟩

/-- State holding only `c4subject` and `c4student`. -/
def c4db : DB := ⟨[c4student], [c4subject], [], [], [], 0, 0⟩

/-- Fingerprint scan at exactly 10:00:30, the `end_time` of `c4subject`. -/
def c4ev : ScanEvent := ⟨"u1", ⟨6, 36030⟩, some 2, some EventType.fingerprint⟩

/-- C4 counterexample: a fingerprint scan whose time-of-day equals the
window's `end_time` (10:00:30) exactly matches the window-resolution query
but is rejected by `isWithinTimeWindow` (which truncates the bound to
10:00:00), so `processScan` records nothing — refuting the claim that a
scan at exactly `end_time` is always accepted. -/
theorem window_boundary_counterexample :
    subjectMatchesAt ⟨6, 36030⟩ c4subject = true ∧
    isWithinTimeWindow 36030 c4subject = false ∧
    scanAccepted ⟨6, 36030⟩ c4subject = false ∧
    (processFingerprintScan c4db c4ev).map Prod.snd = some none ∧
    (stepScan c4db c4ev).attendance = [] := by
  decide

/-- C4 (amended).  For every schedule window that is active on the scan's
day and whose `start_time` and `end_time` have whole-minute precision, a
scan at exactly `start_time` or exactly `end_time` is accepted by both the
window-resolution query and the in-window validation, while a scan one
second before `start_time` or one second after `end_time` is rejected:
both checks are inclusive at both ends of their intervals, but the
in-window validation applies them to the minute-truncated bounds. -/
theorem window_boundary_minute_precision (s : Subject) (dte : Nat)
    (hact : s.status = SubjectStatus.active)
    (hday : s.day_of_week = some (dte % 7))
    (hs0 : s.start_time % 60 = 0) (he0 : s.end_time % 60 = 0)
    (hpos : 1 ≤ s.start_time) (hle : s.start_time ≤ s.end_time) :
    scanAccepted ⟨dte, s.start_time⟩ s = true ∧
    scanAccepted ⟨dte, s.end_time⟩ s = true ∧
    scanAccepted ⟨dte, s.start_time - 1⟩ s = false ∧
    scanAccepted ⟨dte, s.end_time + 1⟩ s = false := by
  have hs := setHM_hour_minute s.start_time hs0
  have he := setHM_hour_minute s.end_time he0
  unfold scanAccepted subjectMatchesAt isWithinTimeWindow Timestamp.dayOfWeek
  refine ⟨?_, ?_, ?_, ?_⟩
  · simp [Bool.and_eq_true, decide_eq_true_eq, hact, hday, hs, he] <;> omega
  · simp [Bool.and_eq_true, decide_eq_true_eq, hact, hday, hs, he] <;> omega
  · rw [Bool.eq_false_iff]
    intro hcontra
    simp [Bool.and_eq_true, decide_eq_true_eq, hact, hday, hs, he] at hcontra <;>
      omega
  · rw [Bool.eq_false_iff]
    intro hcontra
    simp [Bool.and_eq_true, decide_eq_true_eq, hact, hday, hs, he] at hcontra <;>
      omega

/-- Whole-minute window (09:00–10:00) used to instantiate the amended C4. -/
def c4wsubject : Subject :=
  ⟨1, some 6, none, 32400, 36000, AcademicStage.stage1, SubjectStatus.active⟩

theorem window_boundary_minute_precision_witness :
    scanAccepted ⟨6, 32400⟩ c4wsubject = true ∧
    scanAccepted ⟨6, 36000⟩ c4wsubject = true ∧
    scanAccepted ⟨6, 32400 - 1⟩ c4wsubject = false ∧
    scanAccepted ⟨6, 36000 + 1⟩ c4wsubject = false := by
  have h := window_boundary_minute_precision c4wsubject 6 rfl rfl
    (by decide) (by decide) (by decide) (by decide)
  exact h

/-! ## Claim C7: the binary importer skips bad records individually -/

theorem length_filterMap_ite {α β : Type} (g : α → β) (p : α → Bool)
    (l : List α) :
    (l.filterMap (fun i => if p i then none else some (g i))).length =
      (l.filter (fun i => !(p i))).length := by
  induction l with
  | nil => rfl
  | cons x xs ih => by_cases h : p x <;> simp [h, ih]

/-- A well-formed 40-byte record whose user-id field decodes to "USER1". -/
def c7valid : List Nat := [85, 83, 69, 82, 49, 0, 0, 0, 0] ++ List.replicate 31 7

/-- A corrupted 40-byte record: its entire user-id field is NUL, so the
decoded id is empty and the record is skipped. -/
def c7bad : List Nat := List.replicate 40 0

/-- A ten-record import file with one corrupted record among nine valid
ones. -/
def c7buffer : List Nat :=
  c7valid ++ c7valid ++ c7valid ++ c7bad ++ c7valid ++ c7valid ++ c7valid ++
    c7valid ++ c7valid ++ c7valid

set_option maxRecDepth 8192 in
/-- C7.  The `.dat` importer processes a buffer as `floor(length / 40)`
consecutive 40-byte records and emits exactly one event per record whose
NUL-trimmed user-id field is non-empty, skipping each empty-id (corrupted)
record individually; in particular the ten-record file `c7buffer` with one
corrupted record yields exactly nine events. -/
theorem parseDatFile_skips_individually :
    (∀ buf : List Nat,
      (parseDatFile buf).length =
        ((List.range (buf.length / 40)).filter
          (fun i => !(datUserId buf i == []))).length) ∧
    (parseDatFile c7buffer).length = 9 := by
  constructor
  · intro buf
    exact length_filterMap_ite _ (fun i => datUserId buf i == []) _
  · decide

/-! ## Claim C8: sequential per-device sync with error isolation -/

theorem filterMap_startId_flatMap (run : Device → Except String Unit) :
    ∀ l : List Device,
      (l.flatMap (syncBlock run)).filterMap startId =
        l.map (fun d => d.device_id) := by
  intro l
  induction l with
  | nil => rfl
  | cons d rest ih => simp [syncBlock, startId, ih]

theorem start_followed_by_finish (run : Device → Except String Unit) :
    ∀ (l : List Device) (i id : Nat),
      (l.flatMap (syncBlock run))[i]? = some (SyncEv.start id) →
      ∃ ok, (l.flatMap (syncBlock run))[i + 1]? =
        some (SyncEv.finish id ok) := by
  intro l
  induction l with
  | nil => intro i id h; simp at h
  | cons d rest ih =>
    intro i id h
    match i with
    | 0 =>
      simp [syncBlock] at h
      subst h
      refine ⟨(match run d with | Except.ok _ => true | Except.error _ => false),
        ?_⟩
      simp [syncBlock]
    | 1 => simp [syncBlock] at h
    | Nat.succ (Nat.succ j) =>
      simp only [syncBlock, List.flatMap_cons, List.cons_append,
        List.nil_append, List.getElem?_cons_succ] at h ⊢
      exact ih j id h

/-- C8.  Every sync cycle attempts the active devices one at a time, in
order: the trace's `start` events list exactly the active devices'
ids (so a failure of one device never removes a later device from the
cycle), and the event immediately after each device's `start` is that same
device's `finish` — no other device's work is interleaved between a
device's start and its completion. -/
theorem syncAllDevices_sequential_isolated (devices : List Device)
    (run : Device → Except String Unit) :
    ((syncAllDevices devices run).filterMap startId =
      (devices.filter (fun d => d.is_active)).map (fun d => d.device_id)) ∧
    ∀ i id, (syncAllDevices devices run)[i]? = some (SyncEv.start id) →
      ∃ ok, (syncAllDevices devices run)[i + 1]? =
        some (SyncEv.finish id ok) := by
  constructor
  · exact filterMap_startId_flatMap run _
  · exact start_followed_by_finish run _

/-- Concrete cycle used to instantiate C8: device 1 fails with a caught
error, device 2 succeeds, device 3 is inactive. -/
def c8devices : List Device :=
  [⟨1, true, some "10.0.0.1"⟩, ⟨2, true, some "10.0.0.2"⟩, ⟨3, false, none⟩]

/-- A run in which device 1's sync throws. -/
def c8run : Device → Except String Unit := fun d =>
  if d.device_id == 1 then Except.error "connection timeout" else Except.ok ()

theorem syncAllDevices_sequential_isolated_witness :
    (syncAllDevices c8devices c8run).filterMap startId = [1, 2] ∧
    ∃ ok, (syncAllDevices c8devices c8run)[0 + 1]? =
      some (SyncEv.finish 1 ok) := by
  constructor
  · rw [(syncAllDevices_sequential_isolated c8devices c8run).1]
    decide
  · exact (syncAllDevices_sequential_isolated c8devices c8run).2 0 1 (by decide)

/-! ## Claim C9: the serial frame layout -/

theorem bufWrite_cons_succ (vs : List Nat) :
    ∀ (x : Nat) (l : List Nat) (off : Nat),
      bufWrite (x :: l) (off + 1) vs = x :: bufWrite l off vs := by
  induction vs with
  | nil => intro x l off; rfl
  | cons v vs ih =>
    intro x l off
    show bufWrite ((x :: l).set (off + 1) v) (off + 2) vs =
      x :: bufWrite (l.set off v) (off + 1) vs
    rw [List.set_cons_succ]
    exact ih x (l.set off v) (off + 1)

theorem bufWrite_start (vs : List Nat) :
    ∀ l : List Nat, vs.length ≤ l.length →
      bufWrite l 0 vs = vs ++ l.drop vs.length := by
  induction vs with
  | nil => intro l _; simp [bufWrite]
  | cons v vs ih =>
    intro l hlen
    match l with
    | [] => simp at hlen
    | x :: l =>
      show bufWrite ((x :: l).set 0 v) 1 vs = v :: vs ++ (x :: l).drop (vs.length + 1)
      rw [List.set_cons_zero]
      rw [show (1 : Nat) = 0 + 1 from rfl, bufWrite_cons_succ]
      simp only [List.drop_succ_cons]
      rw [ih l (by simpa using hlen)]
      rfl

theorem bufWrite_after (vs : List Nat) :
    ∀ (pre rest : List Nat) (off : Nat),
      bufWrite (pre ++ rest) (pre.length + off) vs =
        pre ++ bufWrite rest off vs := by
  intro pre
  induction pre with
  | nil => intro rest off; simp
  | cons x pre ih =>
    intro rest off
    show bufWrite (x :: (pre ++ rest)) (pre.length + 1 + off) vs =
      x :: pre ++ bufWrite rest off vs
    rw [show pre.length + 1 + off = pre.length + off + 1 by omega]
    rw [bufWrite_cons_succ]
    rw [ih rest off]
    rfl

/-- C9.  For every RS485 address below 256 and every command byte
sequence, the serial client emits exactly the frame
`[address][command bytes][checksum][CR 0x0D]` where the checksum byte is
the sum of the command's byte values reduced modulo 256 (`sum & 0xFF`). -/
theorem serial_frame_layout (address : Nat) (command : List Nat)
    (haddr : address < 256) :
    formatCommand address command =
      some (address :: command ++
        [(command.foldl (fun s c => s + c) 0) % 256, 13]) := by
  unfold formatCommand
  rw [if_pos haddr]
  have hck : calculateChecksum command =
      (command.foldl (fun s c => s + c) 0) % 256 := by
    unfold calculateChecksum
    have h8 : (255 : Nat) = 2 ^ 8 - 1 := by norm_num
    rw [h8, Nat.and_pow_two_sub_one_eq_mod]
  have h1 : bufWrite (List.replicate (command.length + 3) 0) 0 [address] =
      address :: List.replicate (command.length + 2) 0 := by
    rw [bufWrite_start [address] _ (by simp)]
    simp [List.replicate_succ]
  have h2 : bufWrite (address :: List.replicate (command.length + 2) 0) 1
      command = address :: (command ++ [0, 0]) := by
    rw [show (1 : Nat) = 0 + 1 from rfl, bufWrite_cons_succ]
    rw [bufWrite_start command _ (by simp)]
    rw [List.drop_replicate]
    rw [show command.length + 2 - command.length = 2 from by omega]
    rfl
  have h3 : bufWrite (address :: (command ++ [0, 0])) (command.length + 1)
      [calculateChecksum command] =
      address :: (command ++ [calculateChecksum command, 0]) := by
    have hsh : address :: (command ++ [0, 0]) =
        (address :: command) ++ [0, 0] := by simp
    rw [hsh]
    have hlen : command.length + 1 = (address :: command).length + 0 := by simp
    rw [hlen, bufWrite_after]
    rw [bufWrite_start [calculateChecksum command] _ (by simp)]
    simp
  have h4 : bufWrite (address :: (command ++ [calculateChecksum command, 0]))
      (command.length + 2) [13] =
      address :: (command ++ [calculateChecksum command, 13]) := by
    have hsh : address :: (command ++ [calculateChecksum command, 0]) =
        (address :: command ++ [calculateChecksum command]) ++ [0] := by simp
    rw [hsh]
    have hlen : command.length + 2 =
        (address :: command ++ [calculateChecksum command]).length + 0 := by
      simp
    rw [hlen, bufWrite_after]
    rw [bufWrite_start [13] _ (by simp)]
    simp
  rw [h1, h2, h3, h4, hck]
  rfl

/-- Concrete instantiation of C9: address 1, command "GET"
(bytes 71, 69, 84), checksum 224. -/
theorem serial_frame_layout_witness :
    formatCommand 1 [71, 69, 84] = some [1, 71, 69, 84, 224, 13] := by
  rw [serial_frame_layout 1 [71, 69, 84] (by decide)]
  decide

/-! ## Claim C2: one raw log per event, persisted first -/

theorem map_markProcessed_fresh (l : List RawLog) (id : Nat)
    (hfresh : ∀ r ∈ l, r.raw_log_id ≠ id) :
    l.map (fun r =>
      if r.raw_log_id == id then { r with processed := true } else r) = l := by
  induction l with
  | nil => rfl
  | cons x xs ih =>
    have hx : (x.raw_log_id == id) = false := by
      simpa using hfresh x (List.mem_cons_self x xs)
    simp only [List.map_cons, hx, Bool.false_eq_true, if_false]
    rw [ih (fun r hr => hfresh r (List.mem_cons_of_mem _ hr))]

/-! The claim fails as stated.  An event without a `device_id` — the DTO
field is optional and the public log-push routes forward it unchanged —
violates the NOT NULL `device_id` column of `device_logs_raw` at the
INSERT: `save` rejects, the call throws, and zero RawLog rows are
persisted, not one.  For device-carrying events the claimed behaviour
holds. -/

/-- Empty state used to refute C2. -/
def c2ndb : DB := ⟨[], [], [], [], [], 0, 0⟩

/-- A fingerprint event with no `device_id`. -/
def c2nev : ScanEvent := ⟨"u7", ⟨6, 34200⟩, none, some EventType.fingerprint⟩

/-- C2 counterexample: for a device-less event the raw-log insert fails
(NOT NULL `device_id`), `processScan` throws, and no RawLog row is
persisted — refuting the claim that every event passed to `processScan`
persists exactly one RawLog. -/
theorem rawlog_insert_fails_counterexample :
    storeRawLog c2ndb c2nev = none ∧
    processFingerprintScan c2ndb c2nev = none ∧
    (stepScan c2ndb c2nev).rawLogs = [] := by
  decide

/-- C2 (amended).  For every event that carries a `device_id`, exactly one
RawLog row is persisted, before any other step runs and unconditionally:
the raw-log insert happens first (`storeRawLog`, appending the event's row
with `processed = false`), and whatever the later steps decide — drop for
any reason or commit — the final raw-log table is the original table plus
exactly that one row, whose content is the event's and whose only possible
later change is the `processed` flag.  An event without a `device_id`
instead fails the insert and persists no RawLog (see the counterexample).
(The freshness hypothesis models the database generating an unused
primary key.) -/
theorem rawlog_one_per_event (db : DB) (e : ScanEvent) (did : Nat)
    (hdev : e.device_id = some did)
    (hfresh : ∀ r ∈ db.rawLogs, r.raw_log_id ≠ db.nextRawLogId) :
    storeRawLog db e =
      some (insertRawLog db e did, mkRawLog db.nextRawLogId e did) ∧
    (insertRawLog db e did).rawLogs =
      db.rawLogs ++ [mkRawLog db.nextRawLogId e did] ∧
    (mkRawLog db.nextRawLogId e did).processed = false ∧
    ∃ db2 res b, processFingerprintScan db e = some (db2, res) ∧
      db2.rawLogs =
        db.rawLogs ++ [{ mkRawLog db.nextRawLogId e did with processed := b }] := by
  refine ⟨?_, rfl, rfl, ?_⟩
  · unfold storeRawLog
    rw [hdev]
  · rw [processFingerprintScan_some db e did hdev]
    rcases hd : decideScan (insertRawLog db e did) e db.nextRawLogId with
      ⟨rec, m⟩
    cases m
    · refine ⟨_, _, false, rfl, ?_⟩
      rcases rec with _ | r <;>
        simp [applyDecision, insertRawLog, mkRawLog]
    · refine ⟨_, _, true, rfl, ?_⟩
      rcases rec with _ | r <;>
        · simp only [applyDecision, markProcessed, insertRawLog]
          simp only [List.map_append, map_markProcessed_fresh db.rawLogs
            db.nextRawLogId hfresh]
          simp [mkRawLog]

/-- Empty state used to instantiate the amended C2. -/
def c2db : DB := ⟨[], [], [], [], [], 0, 0⟩

/-- Device-carrying event used to instantiate the amended C2 (unknown
user, so the scan is dropped after the raw log is written). -/
def c2ev : ScanEvent := ⟨"u7", ⟨6, 34200⟩, some 3, some EventType.fingerprint⟩

theorem rawlog_one_per_event_witness :
    storeRawLog c2db c2ev =
      some (insertRawLog c2db c2ev 3, mkRawLog c2db.nextRawLogId c2ev 3) ∧
    (insertRawLog c2db c2ev 3).rawLogs =
      c2db.rawLogs ++ [mkRawLog c2db.nextRawLogId c2ev 3] ∧
    (mkRawLog c2db.nextRawLogId c2ev 3).processed = false ∧
    ∃ db2 res b, processFingerprintScan c2db c2ev = some (db2, res) ∧
      db2.rawLogs =
        c2db.rawLogs ++
          [{ mkRawLog c2db.nextRawLogId c2ev 3 with processed := b }] :=
  rawlog_one_per_event c2db c2ev 3 rfl (by simp [c2db])

/-! ## Claim C10: an absent `event_type` passes the modality filter -/

theorem decideScan_ext (db db' : DB) (e e' : ScanEvent) (rid : Nat)
    (h1 : db.students = db'.students) (h2 : db.subjects = db'.subjects)
    (h3 : db.lectures = db'.lectures) (h4 : db.attendance = db'.attendance)
    (h5 : db.nextAttendanceId = db'.nextAttendanceId)
    (h6 : modalityReject e.event_type = modalityReject e'.event_type)
    (h7 : e.biometric_user_id = e'.biometric_user_id)
    (h8 : e.timestamp = e'.timestamp) (h9 : e.device_id = e'.device_id) :
    decideScan db e rid = decideScan db' e' rid := by
  unfold decideScan decideLectureScan mkPresentRecord mkLectureRecord
  rw [h1, h2, h3, h4, h5, h6, h7, h8, h9]

/-- Student used to instantiate C10. -/
def c10student : Student := ⟨0, "u1", StudentStatus.active, AcademicStage.stage1⟩

/-- Active Saturday window 09:00–10:00 used to instantiate C10. -/
def c10subject : Subject :=
  ⟨0, some 6, none, 32400, 36000, AcademicStage.stage1, SubjectStatus.active⟩

/-- State used to instantiate C10. -/
def c10db : DB := ⟨[c10student], [c10subject], [], [], [], 0, 0⟩

/-- A device-carrying scan event whose `event_type` field is absent. -/
def c10ev : ScanEvent := ⟨"u1", ⟨6, 34200⟩, some 5, none⟩

/-- C10.  A scan event with an absent (`undefined`) `event_type` is not
rejected by the modality filter: the call's outcome (thrown or returned
record) and the resulting attendance table are exactly the ones produced
for the same event tagged `fingerprint`, and such an event can commit an
AttendanceRecord with `source = fingerprint` and `status = present`
(shown on the concrete state `c10db`). -/
theorem undefined_modality_reconciled (db : DB) (e : ScanEvent)
    (h : e.event_type = none) :
    ((processFingerprintScan db e).map Prod.snd =
        (processFingerprintScan db
          { e with event_type := some EventType.fingerprint }).map Prod.snd ∧
      (stepScan db e).attendance =
        (stepScan db
          { e with event_type := some EventType.fingerprint }).attendance) ∧
    ∃ db2 rec, processFingerprintScan c10db c10ev = some (db2, some rec) ∧
      rec.source = AttendanceSource.fingerprint ∧
      rec.status = AttendanceStatus.present := by
  cases hdev : e.device_id with
  | none =>
    refine ⟨⟨?_, ?_⟩, ?_⟩
    · rw [processFingerprintScan_none db e hdev,
        processFingerprintScan_none db _ rfl]
    · rw [stepScan_none db e hdev, stepScan_none db _ rfl]
    · exact ⟨_, mkPresentRecord 0 c10student c10subject c10ev 0, rfl, rfl, rfl⟩
  | some did =>
    have hd : decideScan (insertRawLog db e did) e db.nextRawLogId =
        decideScan
          (insertRawLog db ⟨e.biometric_user_id, e.timestamp, some did,
            some EventType.fingerprint⟩ did)
          ⟨e.biometric_user_id, e.timestamp, some did,
            some EventType.fingerprint⟩ db.nextRawLogId := by
      apply decideScan_ext <;> first
        | rfl
        | exact hdev
        | (rw [h]; rfl)
    refine ⟨⟨?_, ?_⟩, ?_⟩
    · rw [processFingerprintScan_some db e did hdev,
        processFingerprintScan_some db ⟨e.biometric_user_id, e.timestamp,
          some did, some EventType.fingerprint⟩ did rfl, hd]
      rfl
    · rw [stepScan_attendance db e did hdev,
        stepScan_attendance db ⟨e.biometric_user_id, e.timestamp, some did,
          some EventType.fingerprint⟩ did rfl, hd]
    · exact ⟨_, mkPresentRecord 0 c10student c10subject c10ev 0, rfl, rfl, rfl⟩

/-- Absent-`event_type`, device-carrying event instantiating the generic
part of C10. -/
def c10wev : ScanEvent := ⟨"u1", ⟨6, 35000⟩, some 5, none⟩

theorem undefined_modality_reconciled_witness :
    ((processFingerprintScan c10db c10wev).map Prod.snd =
        (processFingerprintScan c10db
          { c10wev with event_type := some EventType.fingerprint }).map
          Prod.snd ∧
      (stepScan c10db c10wev).attendance =
        (stepScan c10db
          { c10wev with event_type := some EventType.fingerprint }).attendance) ∧
    ∃ db2 rec, processFingerprintScan c10db c10ev = some (db2, some rec) ∧
      rec.source = AttendanceSource.fingerprint ∧
      rec.status = AttendanceStatus.present :=
  undefined_modality_reconciled c10db c10wev rfl

/-! ## The absence sweep: lemmas shared by C5 and C6 -/

theorem length_mkAbsentRecords (subj : Subject) (jid d : Nat) :
    ∀ (l : List Student) (k : Nat),
      (mkAbsentRecords subj jid d k l).length = l.length := by
  intro l
  induction l with
  | nil => intro k; rfl
  | cons s rest ih => intro k; simp [mkAbsentRecords, ih]

theorem mem_mkAbsentRecords (subj : Subject) (jid d : Nat) :
    ∀ (l : List Student) (k : Nat) (r : AttendanceRecord),
      r ∈ mkAbsentRecords subj jid d k l →
      ∃ s ∈ l, ∃ a, r = mkAbsentRecord a s.student_id jid d subj := by
  intro l
  induction l with
  | nil => intro k r hr; cases hr
  | cons s rest ih =>
    intro k r hr
    rcases List.mem_cons.mp hr with hr | hr
    · exact ⟨s, List.mem_cons_self s rest, k, hr⟩
    · obtain ⟨s2, hs2, a, ha⟩ := ih (k + 1) r hr
      exact ⟨s2, List.mem_cons_of_mem _ hs2, a, ha⟩

theorem mkAbsentRecords_mem_of (subj : Subject) (jid d : Nat) :
    ∀ (l : List Student) (k : Nat) (s : Student), s ∈ l →
      ∃ a, mkAbsentRecord a s.student_id jid d subj ∈
        mkAbsentRecords subj jid d k l := by
  intro l
  induction l with
  | nil => intro k s hs; cases hs
  | cons x rest ih =>
    intro k s hs
    rcases List.mem_cons.mp hs with rfl | hs
    · exact ⟨k, List.mem_cons_self _ _⟩
    · obtain ⟨a, ha⟩ := ih (k + 1) s hs
      exact ⟨a, List.mem_cons_of_mem _ ha⟩

theorem recordedStudentIds_append (a b : List AttendanceRecord) (jid d : Nat) :
    recordedStudentIds (a ++ b) jid d =
      recordedStudentIds a jid d ++ recordedStudentIds b jid d := by
  simp [recordedStudentIds, List.filter_append, List.map_append]

theorem recordedStudentIds_mkAbsentRecords (subj : Subject) (jid d : Nat) :
    ∀ (l : List Student) (k : Nat),
      recordedStudentIds (mkAbsentRecords subj jid d k l) jid d =
        l.map (fun s => s.student_id) := by
  intro l
  induction l with
  | nil => intro k; rfl
  | cons s rest ih =>
    intro k
    simp [recordedStudentIds, mkAbsentRecords, mkAbsentRecord, recordDate] at ih ⊢
    exact ih (k + 1)

theorem mem_recordedStudentIds (att : List AttendanceRecord) (jid d sid : Nat) :
    sid ∈ recordedStudentIds att jid d ↔
      ∃ r ∈ att, r.student_id = sid ∧ r.subject_id = some jid ∧
        recordDate r = d := by
  simp only [recordedStudentIds, List.mem_map, List.mem_filter, beq_iff_eq]
  constructor
  · rintro ⟨r, ⟨⟨hr, hsub⟩, hdate⟩, hid⟩
    exact ⟨r, hr, hid, hsub, hdate⟩
  · rintro ⟨r, hr, hid, hsub, hdate⟩
    exact ⟨r, ⟨⟨hr, hsub⟩, hdate⟩, hid⟩

theorem mem_absentStudentsFor (db : DB) (subj : Subject) (jid d : Nat)
    (s : Student) :
    s ∈ absentStudentsFor db subj jid d ↔
      s ∈ db.students ∧ s.academic_stage = subj.academic_stage ∧
        s.status = StudentStatus.active ∧
        ¬ s.student_id ∈ recordedStudentIds db.attendance jid d := by
  simp only [absentStudentsFor, findByAcademicStage, List.mem_filter,
    Bool.and_eq_true, beq_iff_eq, Bool.not_eq_true', List.contains,
    List.elem_eq_mem, decide_eq_false_iff_not, and_assoc]

/-! ## Claim C5: the absence sweep marks exactly the unrecorded students

The claim fails in one clause: it says each created record is "timestamped
at the date combined with the window's start_time", but the creation loop
parses only the hour and minute of `start_time`
(`const [startHour, startMinute] = subject.start_time.split(':')`), and
`validateTimeFormat` admits `HH:MM:SS` bounds stored with second
precision, so for a window starting 09:00:30 the record is stamped
09:00:00 — the same truncation corrected in C4.  Every other clause holds
as claimed. -/

/-- Window whose `start_time` is 09:00:30 — accepted by
`validateTimeFormat` — used to refute C5's timestamp clause. -/
def c5ssubject : Subject :=
  ⟨0, some 6, none, 32430, 36000, AcademicStage.stage1, SubjectStatus.active⟩

/-- State with one active, unrecorded student for `c5ssubject`. -/
def c5sdb : DB :=
  ⟨[⟨0, "u1", StudentStatus.active, AcademicStage.stage1⟩], [c5ssubject],
    [], [], [], 0, 0⟩

/-- C5 counterexample: sweeping `c5ssubject` (start 09:00:30) marks the
student absent with `scan_timestamp` 09:00:00 — not the window's
`start_time` — refuting the claim's timestamp clause at this input. -/
theorem absent_timestamp_counterexample :
    c5ssubject.start_time = 32430 ∧
    ∃ p, autoMarkAbsentForSubject c5sdb 0 6 = some p ∧
      ∃ r ∈ p.1.attendance, r.source = AttendanceSource.system_auto ∧
        r.scan_timestamp.tod = 32400 ∧
        ¬ r.scan_timestamp.tod = c5ssubject.start_time := by
  refine ⟨rfl, (autoMarkAbsentForSubject c5sdb 0 6).getD (c5sdb, 0), rfl, ?_⟩
  decide

/-- C5 (amended).  When the subject exists, the sweep succeeds and appends (leaving
the existing table untouched) one record per marked student; every
appended record has `status = absent`, `source = system_auto`, the
subject's id, the sweep date, and a scan timestamp at the date combined
with the subject's start time truncated to the whole minute (equal to
`start_time` exactly when it has no seconds component — see the
counterexample); and the set of student
ids receiving a new record is exactly the set of active students of the
subject's academic stage that had no attendance record for that subject
and date — students already recorded (present or absent) receive
nothing.  The returned count is the number of appended records. -/
theorem autoMarkAbsent_exact (db : DB) (jid d : Nat) (subj : Subject)
    (hfind : db.subjects.find? (fun s => s.subject_id == jid) = some subj) :
    ∃ db' n, autoMarkAbsentForSubject db jid d = some (db', n) ∧
      db'.attendance.take db.attendance.length = db.attendance ∧
      n = (db'.attendance.drop db.attendance.length).length ∧
      (∀ r ∈ db'.attendance.drop db.attendance.length,
        r.status = AttendanceStatus.absent ∧
        r.source = AttendanceSource.system_auto ∧
        r.subject_id = some jid ∧
        r.attendance_date = some d ∧
        r.scan_timestamp =
          ⟨d, setHM (hourOf subj.start_time) (minuteOf subj.start_time)⟩) ∧
      (∀ sid, (∃ r ∈ db'.attendance.drop db.attendance.length,
          r.student_id = sid) ↔
        ∃ s ∈ db.students, s.student_id = sid ∧
          s.academic_stage = subj.academic_stage ∧
          s.status = StudentStatus.active ∧
          ¬ ∃ r ∈ db.attendance, r.student_id = sid ∧
            r.subject_id = some jid ∧ recordDate r = d) := by
  unfold autoMarkAbsentForSubject
  rw [hfind]
  refine ⟨_, _, rfl, ?_, ?_, ?_, ?_⟩
  · exact List.take_left _ _
  · rw [List.drop_left,
      length_mkAbsentRecords subj jid d (absentStudentsFor db subj jid d)
        db.nextAttendanceId]
  · rw [List.drop_left]
    intro r hr
    obtain ⟨s, _, a, rfl⟩ :=
      mem_mkAbsentRecords subj jid d _ db.nextAttendanceId r hr
    exact ⟨rfl, rfl, rfl, rfl, rfl⟩
  · intro sid
    rw [List.drop_left]
    constructor
    · rintro ⟨r, hr, rfl⟩
      obtain ⟨s, hs, a, rfl⟩ :=
        mem_mkAbsentRecords subj jid d _ db.nextAttendanceId r hr
      obtain ⟨hmem, hstage, hact, hnorec⟩ :=
        (mem_absentStudentsFor db subj jid d s).mp hs
      refine ⟨s, hmem, rfl, hstage, hact, ?_⟩
      rw [← mem_recordedStudentIds]
      exact hnorec
    · rintro ⟨s, hmem, rfl, hstage, hact, hnorec⟩
      have hs : s ∈ absentStudentsFor db subj jid d := by
        rw [mem_absentStudentsFor]
        refine ⟨hmem, hstage, hact, ?_⟩
        rw [mem_recordedStudentIds]
        exact hnorec
      obtain ⟨a, ha⟩ :=
        mkAbsentRecords_mem_of subj jid d _ db.nextAttendanceId s hs
      exact ⟨mkAbsentRecord a s.student_id jid d subj, ha, rfl⟩

/-- Student present by scan on the sweep date, instantiating C5. -/
def c5present : Student := ⟨0, "u1", StudentStatus.active, AcademicStage.stage1⟩

/-- Student with no record on the sweep date, instantiating C5. -/
def c5absent : Student := ⟨1, "u2", StudentStatus.active, AcademicStage.stage1⟩

/-- Saturday window 09:00–10:00, instantiating C5. -/
def c5subject : Subject :=
  ⟨0, some 6, none, 32400, 36000, AcademicStage.stage1, SubjectStatus.active⟩

/-- Attendance row of `c5present` for the sweep date. -/
def c5record : AttendanceRecord :=
  ⟨0, 0, none, some 0, some 6, ⟨6, 34200⟩, none, AttendanceStatus.present,
    AttendanceSource.fingerprint, some 0⟩

/-- State before the sweep, instantiating C5. -/
def c5db : DB := ⟨[c5present, c5absent], [c5subject], [], [c5record], [], 1, 1⟩

theorem autoMarkAbsent_exact_witness :
    ∃ db' n, autoMarkAbsentForSubject c5db 0 6 = some (db', n) ∧
      db'.attendance.take c5db.attendance.length = c5db.attendance ∧
      n = (db'.attendance.drop c5db.attendance.length).length ∧
      (∀ r ∈ db'.attendance.drop c5db.attendance.length,
        r.status = AttendanceStatus.absent ∧
        r.source = AttendanceSource.system_auto ∧
        r.subject_id = some 0 ∧
        r.attendance_date = some 6 ∧
        r.scan_timestamp =
          ⟨6, setHM (hourOf c5subject.start_time)
            (minuteOf c5subject.start_time)⟩) ∧
      (∀ sid, (∃ r ∈ db'.attendance.drop c5db.attendance.length,
          r.student_id = sid) ↔
        ∃ s ∈ c5db.students, s.student_id = sid ∧
          s.academic_stage = c5subject.academic_stage ∧
          s.status = StudentStatus.active ∧
          ¬ ∃ r ∈ c5db.attendance, r.student_id = sid ∧
            r.subject_id = some 0 ∧ recordDate r = 6) :=
  autoMarkAbsent_exact c5db 0 6 c5subject rfl

/-! ## Claim C6: the absence sweep is idempotent -/

theorem mem_findByAcademicStage (students : List Student)
    (stage : AcademicStage) (s : Student) :
    s ∈ findByAcademicStage students stage ↔
      s ∈ students ∧ s.academic_stage = stage ∧
        s.status = StudentStatus.active := by
  simp [findByAcademicStage, List.mem_filter, Bool.and_eq_true, beq_iff_eq,
    and_assoc]

theorem contains_nat_true (l : List Nat) (a : Nat) (h : a ∈ l) :
    l.contains a = true := by
  simp [List.contains, List.elem_eq_mem, h]

theorem absentStudentsFor_after_sweep (db db2 : DB) (subj : Subject)
    (jid d k : Nat) (hstu : db2.students = db.students)
    (hatt : db2.attendance =
      db.attendance ++
        mkAbsentRecords subj jid d k (absentStudentsFor db subj jid d)) :
    absentStudentsFor db2 subj jid d = [] := by
  unfold absentStudentsFor
  rw [List.filter_eq_nil_iff]
  intro s hs
  rw [hstu] at hs
  rw [mem_findByAcademicStage] at hs
  obtain ⟨hmem0, hstage, hact⟩ := hs
  have hmem2 : s.student_id ∈ recordedStudentIds db2.attendance jid d := by
    rw [hatt, recordedStudentIds_append]
    rcases Classical.em
        (s.student_id ∈ recordedStudentIds db.attendance jid d) with
      hmem | hmem
    · exact List.mem_append.mpr (Or.inl hmem)
    · refine List.mem_append.mpr (Or.inr ?_)
      rw [recordedStudentIds_mkAbsentRecords subj jid d _ k]
      refine List.mem_map.mpr ⟨s, ?_, rfl⟩
      rw [mem_absentStudentsFor]
      exact ⟨hmem0, hstage, hact, hmem⟩
  simp [contains_nat_true _ _ hmem2]
  exact hmem2

theorem autoMark_of_absents_nil (db : DB) (jid d : Nat) (subj : Subject)
    (hfind : db.subjects.find? (fun s => s.subject_id == jid) = some subj)
    (habs : absentStudentsFor db subj jid d = []) :
    autoMarkAbsentForSubject db jid d = some (db, 0) := by
  unfold autoMarkAbsentForSubject
  simp only [hfind, habs, mkAbsentRecords]
  simp

/-- C6.  Running the absence sweep a second time for the same subject and
date is a no-op: the second run finds every active student of the stage
already recorded (by a scan or by the first run), creates no record,
returns a zero count, and leaves the state exactly as the first run left
it. -/
theorem autoMarkAbsent_idempotent (db : DB) (jid d : Nat) (p : DB × Nat)
    (h : autoMarkAbsentForSubject db jid d = some p) :
    autoMarkAbsentForSubject p.1 jid d = some (p.1, 0) := by
  unfold autoMarkAbsentForSubject at h
  cases hfind : db.subjects.find? (fun s => s.subject_id == jid) with
  | none => rw [hfind] at h; cases h
  | some subj =>
    rw [hfind] at h
    injection h with h'
    subst h'
    apply autoMark_of_absents_nil _ jid d subj
    · exact hfind
    · exact absentStudentsFor_after_sweep db _ subj jid d db.nextAttendanceId
        rfl rfl

/-- State instantiating C6: one unrecorded active student and an existing
subject. -/
def c6db : DB :=
  ⟨[⟨0, "u1", StudentStatus.active, AcademicStage.stage1⟩],
    [⟨0, some 6, none, 32400, 36000, AcademicStage.stage1,
      SubjectStatus.active⟩], [], [], [], 0, 0⟩

/-- The result of the first sweep over `c6db`. -/
def c6p : DB × Nat := (autoMarkAbsentForSubject c6db 0 6).getD (c6db, 0)

theorem autoMarkAbsent_idempotent_witness :
    autoMarkAbsentForSubject c6p.1 0 6 = some (c6p.1, 0) :=
  autoMarkAbsent_idempotent c6db 0 6 c6p rfl

/-! ## Claim C1: at-most-one attendance per (student, window, date)

The claim fails as stated.  The entity declares no uniqueness constraint
on `(student_id, subject_id, date)` — storage enforces nothing — and the
application-level dedup query (`findOne` by student and subject only,
attendance.service.ts lines 201–206) fetches a *single* row for the pair,
of whatever date the storage returns first, and compares only that row's
date.  Once a student has a row for the same window on an *earlier* date,
repeated scans on a later date each find the earlier row, see a different
date, and insert — duplicating the (student, window, date) key even with
purely sequential calls.  What does hold: starting from a state with no
row at all for the (student, window) pair, repeated sequential calls
create at most one row per date. -/

/-- Rows of the (student, window) pair — the population inspected by the
step-7 dedup query, which ignores the date. -/
def pairRecords (att : List AttendanceRecord) (sid jid : Nat) :
    List AttendanceRecord :=
  att.filter (fun r => r.student_id == sid && r.subject_id == some jid)

/-- Rows of the full (student, window, date) key of the claimed invariant. -/
def keyRecords (att : List AttendanceRecord) (sid jid d : Nat) :
    List AttendanceRecord :=
  (pairRecords att sid jid).filter (fun r => recordDate r == d)

theorem find?_eq_head?_filter {α : Type} (p : α → Bool) (l : List α) :
    l.find? p = (l.filter p).head? := by
  induction l with
  | nil => rfl
  | cons x xs ih =>
    by_cases h : p x
    · rw [List.find?_cons_of_pos xs h, List.filter_cons_of_pos h]
      rfl
    · rw [List.find?_cons_of_neg xs h, List.filter_cons_of_neg h, ih]

theorem pairFind_eq_head (att : List AttendanceRecord) (sid jid : Nat) :
    pairFind att sid jid = (pairRecords att sid jid).head? :=
  find?_eq_head?_filter _ att

/-- Characterization of a committing decision: the inserted row is either
the subject-path present record — in which case the step-7 dedup query on
the pair returned no row or a row of a different date — or the legacy
lecture-path record, which carries no `subject_id`. -/
theorem decideScan_commit (db : DB) (e : ScanEvent) (rid : Nat)
    (r : AttendanceRecord) (hd : (decideScan db e rid).record = some r) :
    (∃ stu subj, r = mkPresentRecord db.nextAttendanceId stu subj e rid ∧
      (pairFind db.attendance stu.student_id subj.subject_id = none ∨
        ∃ ex, pairFind db.attendance stu.student_id subj.subject_id = some ex ∧
          ¬ recordDate ex = e.timestamp.date)) ∨
    (∃ stu lec, r = mkLectureRecord db.nextAttendanceId stu lec e rid) := by
  unfold decideScan at hd
  split at hd
  · simp at hd
  · split at hd
    · simp at hd
    · rename_i student hstu
      split at hd
      · simp at hd
      · split at hd
        · split at hd
          · simp at hd
          · rename_i lecture rest hlec
            unfold decideLectureScan at hd
            split at hd
            · simp at hd
            · simp only [Option.some.injEq] at hd
              exact Or.inr ⟨student, lecture, hd.symm⟩
        · rename_i subject rest hsubj
          split at hd
          · simp at hd
          · split at hd
            · rename_i existing hex
              split at hd
              · simp at hd
              · rename_i hdate
                simp only [Option.some.injEq] at hd
                refine Or.inl ⟨student, subject, hd.symm, Or.inr
                  ⟨existing, hex, ?_⟩⟩
                simpa using hdate
            · rename_i hex
              simp only [Option.some.injEq] at hd
              exact Or.inl ⟨student, subject, hd.symm, Or.inl hex⟩

/-- Effect of one `processScan` call on the rows of one (student, window)
pair: either the pair's rows are untouched, or — only when the dedup
query on the pair saw no row or a row of a different date — exactly one
row dated at the event's day is appended. -/
theorem processScan_pair_effect (db : DB) (e : ScanEvent) (sid jid : Nat) :
    pairRecords (stepScan db e).attendance sid jid =
      pairRecords db.attendance sid jid ∨
    ((pairFind db.attendance sid jid = none ∨
        ∃ ex, pairFind db.attendance sid jid = some ex ∧
          ¬ recordDate ex = e.timestamp.date) ∧
      ∃ r, pairRecords (stepScan db e).attendance sid jid =
          pairRecords db.attendance sid jid ++ [r] ∧
        recordDate r = e.timestamp.date) := by
  cases hdev : e.device_id with
  | none =>
    left
    rw [stepScan_none db e hdev]
  | some did =>
  rw [stepScan_attendance db e did hdev]
  cases hd : (decideScan (insertRawLog db e did) e db.nextRawLogId).record with
  | none => left; simp [pairRecords, Option.toList]
  | some r =>
    rcases decideScan_commit (insertRawLog db e did) e db.nextRawLogId r hd with
      ⟨stu, subj, hr, hpre⟩ | ⟨stu, lec, hr⟩
    · by_cases hsid : stu.student_id = sid
      · by_cases hjid : subj.subject_id = jid
        · right
          rw [hsid, hjid] at hpre
          constructor
          · exact hpre
          · refine ⟨r, ?_, ?_⟩
            · simp only [pairRecords, Option.toList, List.filter_append]
              congr 1
              rw [List.filter_cons, List.filter_nil]
              rw [hr, mkPresentRecord]
              simp [hsid, hjid]
            · rw [hr, mkPresentRecord, recordDate]
              rfl
        · left
          simp only [pairRecords, Option.toList, List.filter_append]
          rw [List.filter_cons, List.filter_nil]
          rw [hr, mkPresentRecord]
          have : (some subj.subject_id == some jid) = false := by
            simp [hjid]
          simp [this]
      · left
        simp only [pairRecords, Option.toList, List.filter_append]
        rw [List.filter_cons, List.filter_nil]
        rw [hr, mkPresentRecord]
        have : (stu.student_id == sid) = false := by simp [hsid]
        simp [this]
    · left
      simp only [pairRecords, Option.toList, List.filter_append]
      rw [List.filter_cons, List.filter_nil]
      rw [hr, mkLectureRecord]
      simp

/-- C1 (amended).  If the state holds no AttendanceRecord at all for a
(student, window) pair — on any date — then two sequential `processScan`
calls for the same event leave at most one record per
(student, window, date): the second matching scan finds the row the first
one committed and drops as a duplicate.  The state hypothesis cannot be
discharged in general: the dedup is only this application-level
read-then-write (storage declares no uniqueness constraint on the key),
and its query ignores the date, so a pre-existing row of the same pair on
a different date re-enables insertion (see the counterexample). -/
theorem processScan_repeat_single_record (db : DB) (e : ScanEvent)
    (sid jid : Nat) (h : pairRecords db.attendance sid jid = []) (d : Nat) :
    (keyRecords (stepScan (stepScan db e) e).attendance sid jid d).length
      ≤ 1 := by
  rcases processScan_pair_effect db e sid jid with h1 | ⟨hpre1, r1, h1, hr1⟩
  · rw [h] at h1
    rcases processScan_pair_effect (stepScan db e) e sid jid
      with h2 | ⟨hpre2, r2, h2, hr2⟩
    · unfold keyRecords
      rw [h2, h1]
      simp
    · unfold keyRecords
      rw [h2, h1]
      simpa using List.length_filter_le _ [r2]
  · rw [h] at h1
    simp only [List.nil_append] at h1
    rcases processScan_pair_effect (stepScan db e) e sid jid
      with h2 | ⟨hpre2, r2, h2, hr2⟩
    · unfold keyRecords
      rw [h2, h1]
      simpa using List.length_filter_le _ [r1]
    · exfalso
      have hfind2 : pairFind (stepScan db e).attendance sid jid = some r1 := by
        rw [pairFind_eq_head, h1]
        rfl
      rcases hpre2 with hnone | ⟨ex, hex, hexd⟩
      · rw [hfind2] at hnone
        cases hnone
      · rw [hfind2] at hex
        injection hex with hex'
        subst hex'
        exact hexd hr1

/-- Active student used to refute C1. -/
def c1student : Student := ⟨0, "u1", StudentStatus.active, AcademicStage.stage1⟩

/-- Active Saturday window 09:00–10:00 used to refute C1. -/
def c1subject : Subject :=
  ⟨0, some 6, none, 32400, 36000, AcademicStage.stage1, SubjectStatus.active⟩

/-- Initial state used to refute C1. -/
def c1db : DB := ⟨[c1student], [c1subject], [], [], [], 0, 0⟩

/-- Matching scan on the first Saturday (day 6, 09:30), pushed by a
registered device. -/
def c1evA : ScanEvent := ⟨"u1", ⟨6, 34200⟩, some 1, some EventType.fingerprint⟩

/-- Matching scan on the following Saturday (day 13, 09:30), issued twice
by the same device. -/
def c1evB : ScanEvent :=
  ⟨"u1", ⟨13, 34200⟩, some 1, some EventType.fingerprint⟩

/-- C1 counterexample: after a recorded scan on day 6, two sequential
`processScan` calls with the *same* matching event on day 13 each pass the
dedup check — `findOne` returns the day-6 row, whose date differs — and
both insert, leaving two AttendanceRecords for the single key
(student 0, window 0, day 13).  Sequential repetition already violates the
claimed at-most-one invariant, so no storage constraint is enforcing it. -/
theorem duplicate_attendance_counterexample :
    (keyRecords
      (stepScan (stepScan (stepScan c1db c1evA) c1evB) c1evB).attendance
      0 0 13).length = 2 := by
  decide

theorem processScan_repeat_single_record_witness :
    (keyRecords (stepScan (stepScan c1db c1evA) c1evA).attendance 0 0 6).length
      ≤ 1 :=
  processScan_repeat_single_record c1db c1evA 0 0 rfl 6

end LAS
